import Mathlib

/-!
# Browser-side controller of the block-layout viewer (`src/back_end/main.js`)

A shallow embedding of the controller: the scene graph it keeps, the page
elements it reads and writes, and its three handlers.

Conventions of the embedding.

* JavaScript numbers are exact rationals (`ℚ`); rounding is not modelled.
* A property that may be `undefined` is an `Option`.
* An exception is returned next to the state reached when it was thrown.
* A handler that awaits a remote answer is split at the `await`: a `Begin`
  part that runs up to the request, and a `Resume` part that takes the answer.
* Scene objects are compared by value, the source compares them by reference.
-/

namespace GeometryGenerator

/-! ## Data model -/

/-- A point or extent of render space (`THREE.Vector3`). -/
structure Vec3 where
  x : ℚ
  y : ℚ
  z : ℚ
  deriving DecidableEq

/-- The global `MODULE_SIZE`: metres per module along the three grid axes. -/
structure ModuleSize where
  x : ℚ
  y : ℚ
  z : ℚ
  deriving DecidableEq

/-- A colour value as the constants service sends it. -/
abbrev ColorValue := String

/-- One element of `coords`: a placed module in grid units. -/
structure ModuleBlock where
  type : String
  x : ℚ
  y : ℚ
  z : ℚ
  dx : ℚ
  dy : ℚ
  dz : ℚ
  deriving DecidableEq

/-- The object `analysis.parameters`. -/
structure Params where
  W_max : Option ℚ
  L_max : Option ℚ
  H_max : Option ℚ
  Volume_V : Option ℚ
  deriving DecidableEq

/-- The object `analysis.cog`. -/
structure Cog where
  X : Option ℚ
  Y : Option ℚ
  Z : Option ℚ
  deriving DecidableEq

/-- The object `analysis`; the literal `{}` is the value with every field absent. -/
structure Analysis where
  parameters : Option Params
  cog : Option Cog
  main_front : Option String
  deriving DecidableEq

/-- The literal `{}` passed to `updateAnalysis` by reset and by a failed generate. -/
def emptyAnalysis : Analysis :=
  { parameters := none, cog := none, main_front := none }

/-- An exception value: a property read on `undefined`, or a rejected promise. -/
inductive JsError where
  | typeError (reading : String)
  | network (message : String)
  deriving DecidableEq

/-- The text of `error.message`. -/
def JsError.message : JsError → String
  | .typeError reading => "Cannot read properties of undefined (reading " ++ reading ++ ")"
  | .network message => message

/-- A child of the transient group. -/
inductive GroupChild where
  | mesh (size : Vec3) (color : Option ColorValue) (opacity : ℚ) (position : Vec3)
  | cogSphere (radius : ℚ) (color : Nat) (position : Option ℚ × Option ℚ × Option ℚ)
  | arrowHelper (dir : Vec3) (origin : Vec3) (length : ℚ) (color : Nat)
      (headLength : ℚ) (headWidth : ℚ)
  deriving DecidableEq

/-- A child of `scene`. -/
inductive SceneObject where
  | ambientLight (color : Nat)
  | directionalLight (color : Nat) (intensity : ℚ) (position : Vec3)
  | gridHelper (size : ℚ) (divisions : Nat) (positionY : ℚ) (opacity : ℚ)
  | axesHelper (size : ℚ)
  | group (children : List GroupChild)
  deriving DecidableEq

/-- The value of a count input, read as a number; `none` is text that reads as `NaN`. -/
abbrev InputValue := Option ℚ

/-- What `updateConsole` leaves in `consoleLog` (the time stamp is left out). -/
structure ConsoleLine where
  message : String
  isError : Bool
  deriving DecidableEq

/-- One element of `data.log`. -/
structure LogItem where
  rule : Option String
  message : String
  status : String
  deriving DecidableEq

/-- One `li` of `rulesList`. -/
structure RuleItem where
  className : String
  textContent : String
  deriving DecidableEq

/-- One value shown in the analysis panel. -/
inductive Shown where
  | na
  | number (value : ℚ)
  | fixed2 (value : ℚ)
  | text (value : String)
  deriving DecidableEq

/-- The six fields of `analysisList`; the COG field has three components. -/
structure AnalysisPanel where
  wMax : Shown
  lMax : Shown
  hMax : Shown
  volume : Shown
  cogX : Shown
  cogY : Shown
  cogZ : Shown
  mainFront : Shown
  deriving DecidableEq

/-- A call of `fetch`. -/
inductive Request where
  | generate (comfort : InputValue) (transparent : InputValue) (opaqueValue : InputValue)
  | exportCsv (coords : List ModuleBlock)
  deriving DecidableEq

/-- The globals of the script and the page elements it touches. `requests` and
`downloads` record the calls of `fetch` and the files handed to the user. -/
structure State where
  MODULE_SIZE : ModuleSize
  BLOCK_COLORS : List (String × ColorValue)
  currentCoords : Option (List ModuleBlock)
  scene : List SceneObject
  controlsTarget : Vec3
  comfortInput : InputValue
  transparentInput : InputValue
  opaqueInput : InputValue
  generateBtnDisabled : Bool
  exportCsvBtnDisabled : Bool
  consoleLog : ConsoleLine
  rulesList : List RuleItem
  analysisList : AnalysisPanel
  requests : List Request
  downloads : List (String × String)
  deriving DecidableEq

/-- The body of a `/generate` answer. `console` and `log` are in both answers of
the wire contract; `coords` and `analysis` may be missing. -/
structure GenerateData where
  success : Bool
  console : String
  log : List LogItem
  coords : Option (List ModuleBlock)
  analysis : Option Analysis
  deriving DecidableEq

/-- How the awaits of `handleGenerate` end: a promise is rejected, or a body arrives. -/
inductive GenerateOutcome where
  | failed (error : JsError)
  | json (data : GenerateData)
  deriving DecidableEq

/-- How the awaits of `handleExportCsv` end. -/
inductive ExportOutcome where
  | failed (error : JsError)
  | notOk (status : Nat) (error : Option String)
  | ok (blob : String)
  deriving DecidableEq

/-- The constant `API_BASE_URL`. -/
def API_BASE_URL : String := "http://127.0.0.1:5000"

/-! ## Helper functions -/

/-- The function `updateConsole`: the console line is replaced. -/
def updateConsole (message : String) (isError : Bool) (s : State) : State :=
  { s with consoleLog := { message := message, isError := isError } }

/-- The `li` that `updateRulesLog` builds for one log item. -/
def ruleItem (item : LogItem) : RuleItem :=
  { className :=
      if item.status = "PASS" then "log-pass"
      else if item.status = "FAIL" then "log-fail"
      else if item.status = "SEPARATOR" then "log-separator"
      else ""
    textContent :=
      if item.status = "SEPARATOR" then item.message
      else item.rule.getD "undefined" ++ ": " ++ item.message }

/-- The function `updateRulesLog`: the list is emptied, then one `li` is appended
for each log item. -/
def updateRulesLog (logData : List LogItem) (s : State) : State :=
  { s with rulesList := logData.foldl (fun rulesList item => rulesList ++ [ruleItem item]) [] }

/-- The template `value || "N/A"` on a number. -/
def orNA (v : Option ℚ) : Shown :=
  match v with
  | some q => if q = 0 then .na else .number q
  | none => .na

/-- The template `value ? value.toFixed(2) : "N/A"`. -/
def fixedOrNA (v : Option ℚ) : Shown :=
  match v with
  | some q => if q = 0 then .na else .fixed2 q
  | none => .na

/-- The template `mainFront || "N/A"`. -/
def textOrNA (v : Option String) : Shown :=
  match v with
  | some t => if t = "" then .na else .text t
  | none => .na

/-- The function `updateAnalysis`: the new content of `analysisList`, or the
exception thrown while the template is evaluated (the panel is then not
assigned). -/
def updateAnalysis (analysis : Option Analysis) : Except JsError AnalysisPanel :=
  match analysis with
  | none => .error (.typeError "parameters")
  | some a =>
    match a.parameters with
    | none => .error (.typeError "W_max")
    | some params =>
      match a.cog with
      | none => .error (.typeError "X")
      | some cog =>
        .ok { wMax := orNA params.W_max
              lMax := orNA params.L_max
              hMax := orNA params.H_max
              volume := orNA params.Volume_V
              cogX := fixedOrNA cog.X
              cogY := fixedOrNA cog.Y
              cogZ := fixedOrNA cog.Z
              mainFront := textOrNA a.main_front }

/-! ## Scene -/

/-- The children that `initThree` adds to the new scene. -/
def initThree (MODULE_SIZE : ModuleSize) : List SceneObject :=
  [ .ambientLight 0x404040,
    .directionalLight 0xffffff (3 / 2) ⟨10, 15, 10⟩,
    .gridHelper (5 * MODULE_SIZE.x) 5 (-1 / 100) (1 / 2),
    .axesHelper 10 ]

/-- The function `clearScene` on `scene.children`: every child of a copy of the
list that is not one of the first four is removed from the scene. -/
def clearScene (children : List SceneObject) : List SceneObject :=
  let objectsToKeep : List (Option SceneObject) :=
    [children[0]?, children[1]?, children[2]?, children[3]?]
  children.foldl
    (fun cur object => if some object ∈ objectsToKeep then cur else cur.erase object)
    children

/-- The cube that `visualizeBlocks` builds for one block. -/
def blockCube (MODULE_SIZE : ModuleSize) (BLOCK_COLORS : List (String × ColorValue))
    (block : ModuleBlock) : GroupChild :=
  let dx_phys := block.dx * MODULE_SIZE.x
  let dy_phys := block.dy * MODULE_SIZE.y
  let dz_phys := block.dz * MODULE_SIZE.z
  let x_start := (block.x - 1) * MODULE_SIZE.x
  let y_start := (block.y - 1) * MODULE_SIZE.y
  let z_start := (block.z - 1) * MODULE_SIZE.z
  let colorHex := BLOCK_COLORS.lookup block.type
  .mesh ⟨dx_phys, dz_phys, dy_phys⟩ colorHex (7 / 10)
    ⟨x_start + dx_phys / 2, z_start + dz_phys / 2, y_start + dy_phys / 2⟩

/-- The arrow of step 3 of `visualizeBlocks`, built when `mainFront` is not `"N/A"`. -/
def mainFrontArrow (MODULE_SIZE : ModuleSize) (mainFront : Option String) : GroupChild :=
  let maxPhysX := 5 * MODULE_SIZE.x
  let maxPhysY := 5 * MODULE_SIZE.y
  let directionVector : Vec3 := ⟨0, 0, 0⟩
  let arrowPos : Vec3 := ⟨maxPhysX / 2, 0, maxPhysY / 2⟩
  let (directionVector, arrowPos) :=
    if mainFront = some "X+" then ((⟨1, 0, 0⟩ : Vec3), { arrowPos with x := maxPhysX })
    else if mainFront = some "X-" then (⟨-1, 0, 0⟩, { arrowPos with x := 0 })
    else if mainFront = some "Y+" then (⟨0, 0, 1⟩, { arrowPos with z := maxPhysY })
    else if mainFront = some "Y-" then (⟨0, 0, -1⟩, { arrowPos with z := 0 })
    else (directionVector, arrowPos)
  let arrowPos := { arrowPos with y := 5 }
  .arrowHelper directionVector arrowPos 4 0x00ffff (3 / 2) 1

/-- The function `visualizeBlocks`. -/
def visualizeBlocks (coords : Option (List ModuleBlock)) (analysis : Option Analysis)
    (s : State) : State × Option JsError :=
  let s := { s with scene := clearScene s.scene }
  match coords with
  | none => (s, some (.typeError "forEach"))
  | some blocks =>
    let group : List GroupChild :=
      blocks.foldl (fun group block => group ++ [blockCube s.MODULE_SIZE s.BLOCK_COLORS block]) []
    match analysis with
    | none => (s, some (.typeError "cog"))
    | some a =>
      match a.cog with
      | none => (s, some (.typeError "X"))
      | some cog =>
        let group := group ++ [.cogSphere (1 / 2) 0xff0000 (cog.X, cog.Z, cog.Y)]
        let mainFront := a.main_front
        let maxPhysX := 5 * s.MODULE_SIZE.x
        let maxPhysY := 5 * s.MODULE_SIZE.y
        let group :=
          if mainFront ≠ some "N/A" then group ++ [mainFrontArrow s.MODULE_SIZE mainFront]
          else group
        ({ s with scene := s.scene ++ [.group group]
                  controlsTarget := ⟨maxPhysX / 2, maxPhysY / 2, maxPhysY / 2⟩ }, none)

/-! ## Event handlers -/

/-- The comparison `value < 0` on the text of a count input. -/
def isNegative (v : InputValue) : Bool :=
  match v with
  | some q => decide (q < 0)
  | none => false

/-- The guard `comfort < 0 || transparent < 0 || opaque < 0`. -/
def countsNegative (s : State) : Bool :=
  isNegative s.comfortInput || isNegative s.transparentInput || isNegative s.opaqueInput

/-- The part of `handleGenerate` before the first `await`. -/
def handleGenerateBegin (s : State) : State :=
  if countsNegative s then
    updateConsole "Input counts cannot be negative." true s
  else
    let s := { s with generateBtnDisabled := true }
    let s := { s with exportCsvBtnDisabled := true }
    let s := updateConsole "Generating configuration (up to 1000 attempts)..." false s
    { s with requests :=
        s.requests ++ [.generate s.comfortInput s.transparentInput s.opaqueInput] }

/-- The `catch` block of `handleGenerate`. -/
def generateCatch (error : JsError) (s : State) : State :=
  updateConsole
    ("API Error: " ++ error.message ++ ". Ensure the Flask server (app.py) is running on "
      ++ API_BASE_URL ++ ".") true s

/-- The `finally` block of `handleGenerate`. -/
def generateFinally (s : State) : State :=
  { s with generateBtnDisabled := false }

/-- The body of the `try` block of `handleGenerate` after the awaits, with the
exception it throws, if any. -/
def generateTry (data : GenerateData) (s : State) : State × Option JsError :=
  let s := updateConsole data.console (!data.success) s
  let s := updateRulesLog data.log s
  if data.success then
    let s := { s with currentCoords := data.coords }
    match visualizeBlocks data.coords data.analysis s with
    | (s, some error) => (s, some error)
    | (s, none) =>
      match updateAnalysis data.analysis with
      | .error error => (s, some error)
      | .ok panel =>
        let s := { s with analysisList := panel }
        ({ s with exportCsvBtnDisabled := false }, none)
  else
    let s := { s with currentCoords := none }
    let s := { s with scene := clearScene s.scene }
    match updateAnalysis (some emptyAnalysis) with
    | .error error => (s, some error)
    | .ok panel => ({ s with analysisList := panel }, none)

/-- The part of `handleGenerate` after the awaits. -/
def handleGenerateResume (outcome : GenerateOutcome) (s : State) : State :=
  match outcome with
  | .failed error => generateFinally (generateCatch error s)
  | .json data =>
    match generateTry data s with
    | (s, some error) => generateFinally (generateCatch error s)
    | (s, none) => generateFinally s

/-- The function `handleGenerate`, run to its end with the given answer. -/
def handleGenerate (outcome : GenerateOutcome) (s : State) : State :=
  if countsNegative s then handleGenerateBegin s
  else handleGenerateResume outcome (handleGenerateBegin s)

/-- The function `handleReset`, with the exception it throws, if any. -/
def handleReset (s : State) : State × Option JsError :=
  let s := { s with comfortInput := some 5 }
  let s := { s with transparentInput := some 3 }
  let s := { s with opaqueInput := some 1 }
  let s := { s with scene := clearScene s.scene }
  let s := { s with currentCoords := none }
  let s := { s with exportCsvBtnDisabled := true }
  let s := { s with rulesList := [] }
  match updateAnalysis (some emptyAnalysis) with
  | .error error => (s, some error)
  | .ok panel =>
    let s := { s with analysisList := panel }
    (updateConsole "Input fields reset to default (5, 3, 1). Scene cleared." false s, none)

/-- The part of `handleExportCsv` before the first `await`. -/
def handleExportCsvBegin (s : State) : State :=
  match s.currentCoords with
  | none => updateConsole "No valid configuration to export." true s
  | some coords => { s with requests := s.requests ++ [.exportCsv coords] }

/-- The part of `handleExportCsv` after the awaits. -/
def handleExportCsvResume (outcome : ExportOutcome) (s : State) : State :=
  match outcome with
  | .failed error => updateConsole ("Export Error: " ++ error.message ++ ".") true s
  | .notOk status error =>
    let message :=
      match error with
      | some text => if text = "" then "HTTP error! status: " ++ toString status else text
      | none => "HTTP error! status: " ++ toString status
    updateConsole ("Export Error: " ++ message ++ ".") true s
  | .ok blob =>
    let s := { s with downloads := s.downloads ++ [("block_coordinates.csv", blob)] }
    updateConsole "Coordinates exported successfully to block_coordinates.csv" false s

/-- The function `handleExportCsv`, run to its end with the given answer. -/
def handleExportCsv (outcome : ExportOutcome) (s : State) : State :=
  match s.currentCoords with
  | none => handleExportCsvBegin s
  | some _ => handleExportCsvResume outcome (handleExportCsvBegin s)

/-- Whether a child of the transient group is a block box. -/
def GroupChild.isMesh : GroupChild → Bool
  | .mesh _ _ _ _ => true
  | _ => false

/-- Whether a child of the transient group is a main-front indicator. -/
def GroupChild.isArrow : GroupChild → Bool
  | .arrowHelper _ _ _ _ _ _ => true
  | _ => false

/-! ## Session controller: phases and steps

The script keeps no phase variable. `Phase` and `phaseAfter` follow the state
machine of the specification; `Session.step?` runs the handlers of the script
next to it. A generate fires only while its button is enabled, and an answer
arrives only for a request in flight. -/

/-- The phases named by the specification of the session controller. -/
inductive Phase where
  | Idle
  | Requesting
  | Visualized
  | Failed
  deriving DecidableEq

/-- The phase the specification gives after the answer to a generate request. -/
def phaseAfter : GenerateOutcome → Phase
  | .failed _ => .Failed
  | .json data => if data.success then .Visualized else .Failed

/-- A step of the session controller. -/
inductive Event where
  | generateBegin
  | generateResume (outcome : GenerateOutcome)
  | reset
  | exportBegin
  | exportResume (outcome : ExportOutcome)
  deriving DecidableEq

/-- The page state, the phase of the specification, and the requests in flight. -/
structure Session where
  state : State
  phase : Phase
  generateInFlight : Bool
  exportsInFlight : Nat
  deriving DecidableEq

/-- One step of the session, `none` when the step cannot occur. -/
def Session.step? (σ : Session) : Event → Option Session
  | .generateBegin =>
    if σ.state.generateBtnDisabled then none
    else if countsNegative σ.state then
      some { σ with state := handleGenerateBegin σ.state }
    else
      some { σ with state := handleGenerateBegin σ.state
                    phase := .Requesting
                    generateInFlight := true }
  | .generateResume outcome =>
    if σ.generateInFlight then
      some { σ with state := handleGenerateResume outcome σ.state
                    phase := phaseAfter outcome
                    generateInFlight := false }
    else none
  | .reset => some { σ with state := (handleReset σ.state).1, phase := .Idle }
  | .exportBegin =>
    match σ.state.currentCoords with
    | none => some { σ with state := handleExportCsvBegin σ.state }
    | some _ =>
      some { σ with state := handleExportCsvBegin σ.state
                    exportsInFlight := σ.exportsInFlight + 1 }
  | .exportResume outcome =>
    match σ.exportsInFlight with
    | 0 => none
    | n + 1 =>
      some { σ with state := handleExportCsvResume outcome σ.state, exportsInFlight := n }

/-- The session after a sequence of steps, `none` when one of them cannot occur. -/
def Session.run? (σ : Session) : List Event → Option Session
  | [] => some σ
  | e :: es =>
    match σ.step? e with
    | none => none
    | some σ1 => σ1.run? es

/-- A session that starts in phase `Idle` with nothing in flight. -/
def Session.start (s : State) : Session :=
  { state := s, phase := .Idle, generateInFlight := false, exportsInFlight := 0 }

/-- A `/generate` body follows the wire contract: with `success` it carries
`coords` and an `analysis` that has `parameters` and `cog`. -/
def GenerateData.wellFormed (data : GenerateData) : Bool :=
  !data.success ||
    (data.coords.isSome &&
      match data.analysis with
      | some a => a.parameters.isSome && a.cog.isSome
      | none => false)

/-- Every answer to a generate request in the step follows the wire contract. -/
def Event.wellFormed : Event → Bool
  | .generateResume (.json data) => data.wellFormed
  | _ => true

/-! ## Sample values -/

/-- The value of `MODULE_SIZE` written in the script. -/
def defaultModuleSize : ModuleSize := ⟨11 / 4, 11 / 4, 3⟩

/-- A panel that shows `N/A` in every field. -/
def blankPanel : AnalysisPanel :=
  { wMax := .na, lMax := .na, hMax := .na, volume := .na
    cogX := .na, cogY := .na, cogZ := .na, mainFront := .na }

/-- The page after `initThree` with the constants of the script. -/
def idleState : State :=
  { MODULE_SIZE := defaultModuleSize
    BLOCK_COLORS := [("comfort", "#22c55e")]
    currentCoords := none
    scene := initThree defaultModuleSize
    controlsTarget := ⟨0, 0, 0⟩
    comfortInput := some 5
    transparentInput := some 3
    opaqueInput := some 1
    generateBtnDisabled := false
    exportCsvBtnDisabled := true
    consoleLog := { message := "", isError := false }
    rulesList := []
    analysisList := blankPanel
    requests := []
    downloads := [] }

/-- A block of two modules along the first grid axis. -/
def sampleBlock : ModuleBlock :=
  { type := "comfort", x := 1, y := 2, z := 1, dx := 2, dy := 1, dz := 1 }

/-- An analysis with every field present and main front `X+`. -/
def sampleAnalysis : Analysis :=
  { parameters := some { W_max := some 2, L_max := some 1, H_max := some 1, Volume_V := some 2 }
    cog := some { X := some 1, Y := some 2, Z := some 3 }
    main_front := some "X+" }

/-- An analysis whose centre of gravity lacks the component `Z`. -/
def incompleteCogAnalysis : Analysis :=
  { parameters := some { W_max := none, L_max := none, H_max := none, Volume_V := none }
    cog := some { X := some 1, Y := some 2, Z := none }
    main_front := some "N/A" }

/-- A `/generate` answer with `success: true`. -/
def successData : GenerateData :=
  { success := true, console := "Configuration found.", log := []
    coords := some [sampleBlock], analysis := some sampleAnalysis }

/-- A `/generate` answer with `success: false`. -/
def failureData : GenerateData :=
  { success := false, console := "No configuration found.", log := []
    coords := none, analysis := none }

/-- The page after a successful generate: a layout is stored and shown. -/
def visualizedState : State :=
  handleGenerate (.json successData) idleState

/-- The idle page with the counts `(-1, 3, 1)`. -/
def negativeCountState : State :=
  { idleState with comfortInput := some (-1) }

/-- A page that holds a stored layout and shows a transient group. -/
def shownState : State :=
  { idleState with
      currentCoords := some [sampleBlock]
      scene := initThree defaultModuleSize ++ [.group []]
      exportCsvBtnDisabled := false }

/-! ## Scene composer: lemmas -/

theorem foldl_push_eq_map {α β : Type} (f : α → β) (l : List α) (init : List β) :
    l.foldl (fun acc a => acc ++ [f a]) init = init ++ l.map f := by
  induction l generalizing init with
  | nil => simp
  | cons a l ih => simp [ih]

theorem foldl_erase_rest (keep : List (Option SceneObject)) (env rest : List SceneObject)
    (hkeep : ∀ o ∈ rest, some o ∉ keep) (henv : ∀ o ∈ rest, o ∉ env) :
    rest.foldl (fun cur object => if some object ∈ keep then cur else cur.erase object)
      (env ++ rest) = env := by
  induction rest with
  | nil => simp
  | cons o r ih =>
    have h1 : some o ∉ keep := hkeep o (List.mem_cons_self o r)
    have h2 : o ∉ env := henv o (List.mem_cons_self o r)
    have h3 : (env ++ o :: r).erase o = env ++ r := by
      rw [List.erase_append_right _ h2, List.erase_cons_head]
    rw [List.foldl_cons, if_neg h1, h3]
    exact ih (fun p hp => hkeep p (List.mem_cons_of_mem o hp))
      (fun p hp => henv p (List.mem_cons_of_mem o hp))

theorem clearScene_env_append (a d g x : SceneObject) (rest : List SceneObject)
    (hrest : ∀ o ∈ rest, o ∉ [a, d, g, x]) :
    clearScene ([a, d, g, x] ++ rest) = [a, d, g, x] := by
  have hkeep : ∀ o ∈ rest, some o ∉ [some a, some d, some g, some x] := by
    intro o ho hmem
    apply hrest o ho
    simpa using hmem
  have h := foldl_erase_rest [some a, some d, some g, some x] [a, d, g, x] rest hkeep hrest
  simpa [clearScene] using h

theorem clearScene_env (a d g x : SceneObject) : clearScene [a, d, g, x] = [a, d, g, x] := by
  have h := clearScene_env_append a d g x [] (by simp)
  simpa using h

/-- The scene and view target that a completed `visualizeBlocks` leaves. -/
theorem visualizeBlocks_completes (s : State) (blocks : List ModuleBlock) (a : Analysis)
    (cog : Cog) (hcog : a.cog = some cog) :
    visualizeBlocks (some blocks) (some a) s =
      ({ s with
          scene := clearScene s.scene ++
            [.group (blocks.map (blockCube s.MODULE_SIZE s.BLOCK_COLORS)
              ++ [.cogSphere (1 / 2) 0xff0000 (cog.X, cog.Z, cog.Y)]
              ++ (if a.main_front ≠ some "N/A" then [mainFrontArrow s.MODULE_SIZE a.main_front]
                  else []))]
          controlsTarget :=
            ⟨5 * s.MODULE_SIZE.x / 2, 5 * s.MODULE_SIZE.y / 2, 5 * s.MODULE_SIZE.y / 2⟩ },
        none) := by
  unfold visualizeBlocks
  simp only [hcog, foldl_push_eq_map, List.nil_append]
  by_cases h : a.main_front = some "N/A"
  · simp [h]
  · simp [h]

theorem filter_isArrow_cubes (ms : ModuleSize) (colors : List (String × ColorValue))
    (blocks : List ModuleBlock) :
    (blocks.map (blockCube ms colors)).filter GroupChild.isArrow = [] := by
  induction blocks with
  | nil => rfl
  | cons b bs ih => simp [List.filter_cons, blockCube, GroupChild.isArrow, ih]

theorem mainFrontArrow_isArrow (ms : ModuleSize) (mf : Option String) :
    (mainFrontArrow ms mf).isArrow = true := by
  unfold mainFrontArrow
  split_ifs <;> rfl

theorem mainFrontArrow_xPlus (ms : ModuleSize) :
    mainFrontArrow ms (some "X+") =
      .arrowHelper ⟨1, 0, 0⟩ ⟨5 * ms.x, 5, 2.5 * ms.y⟩ 4 0x00ffff (3 / 2) 1 := by
  simp [mainFrontArrow]
  ring

theorem mainFrontArrow_xMinus (ms : ModuleSize) :
    mainFrontArrow ms (some "X-") =
      .arrowHelper ⟨-1, 0, 0⟩ ⟨0, 5, 2.5 * ms.y⟩ 4 0x00ffff (3 / 2) 1 := by
  simp [mainFrontArrow]
  ring

theorem mainFrontArrow_yPlus (ms : ModuleSize) :
    mainFrontArrow ms (some "Y+") =
      .arrowHelper ⟨0, 0, 1⟩ ⟨2.5 * ms.x, 5, 5 * ms.y⟩ 4 0x00ffff (3 / 2) 1 := by
  simp [mainFrontArrow]
  ring

theorem mainFrontArrow_yMinus (ms : ModuleSize) :
    mainFrontArrow ms (some "Y-") =
      .arrowHelper ⟨0, 0, -1⟩ ⟨2.5 * ms.x, 5, 0⟩ 4 0x00ffff (3 / 2) 1 := by
  simp [mainFrontArrow]
  ring

/-! ## Geometry mapper -/

/-- C1. For every block and module size, the box built by `visualizeBlocks` has
render-space size `(dx*sx, dz*sz, dy*sy)` and centre
`((x-1)*sx + dx*sx/2, (z-1)*sz + dz*sz/2, (y-1)*sy + dy*sy/2)`; the transient
group starts with one such box per input block, in input order, and holds no
other box. -/
theorem visualizeBlocks_boxes (s : State) (blocks : List ModuleBlock) (a : Analysis)
    (cog : Cog) (hcog : a.cog = some cog) :
    ∃ others : List GroupChild,
      (visualizeBlocks (some blocks) (some a) s).2 = none ∧
      (visualizeBlocks (some blocks) (some a) s).1.scene =
        clearScene s.scene ++
          [.group (blocks.map (fun b =>
              GroupChild.mesh
                ⟨b.dx * s.MODULE_SIZE.x, b.dz * s.MODULE_SIZE.z, b.dy * s.MODULE_SIZE.y⟩
                (s.BLOCK_COLORS.lookup b.type) (7 / 10)
                ⟨(b.x - 1) * s.MODULE_SIZE.x + b.dx * s.MODULE_SIZE.x / 2,
                 (b.z - 1) * s.MODULE_SIZE.z + b.dz * s.MODULE_SIZE.z / 2,
                 (b.y - 1) * s.MODULE_SIZE.y + b.dy * s.MODULE_SIZE.y / 2⟩)
            ++ others)] ∧
      ∀ c ∈ others, c.isMesh = false := by
  refine ⟨[.cogSphere (1 / 2) 0xff0000 (cog.X, cog.Z, cog.Y)]
    ++ (if a.main_front ≠ some "N/A" then [mainFrontArrow s.MODULE_SIZE a.main_front]
        else []), ?_, ?_, ?_⟩
  · rw [visualizeBlocks_completes s blocks a cog hcog]
  · rw [visualizeBlocks_completes s blocks a cog hcog]
    simp [blockCube, List.append_assoc]
  · intro c hc
    by_cases h : a.main_front = some "N/A"
    · simp [h] at hc
      subst hc
      rfl
    · simp [h] at hc
      rcases hc with hc | hc
      · subst hc
        rfl
      · subst hc
        rfl

/-- Witness of C1: the sample block on the idle page with the module size of the script. -/
theorem visualizeBlocks_boxes_witness :
    sampleAnalysis.cog = some { X := some 1, Y := some 2, Z := some 3 } ∧
    ∃ others : List GroupChild,
      (visualizeBlocks (some [sampleBlock]) (some sampleAnalysis) idleState).2 = none ∧
      (visualizeBlocks (some [sampleBlock]) (some sampleAnalysis) idleState).1.scene =
        clearScene idleState.scene ++
          [.group ([sampleBlock].map (fun b =>
              GroupChild.mesh
                ⟨b.dx * idleState.MODULE_SIZE.x, b.dz * idleState.MODULE_SIZE.z,
                 b.dy * idleState.MODULE_SIZE.y⟩
                (idleState.BLOCK_COLORS.lookup b.type) (7 / 10)
                ⟨(b.x - 1) * idleState.MODULE_SIZE.x + b.dx * idleState.MODULE_SIZE.x / 2,
                 (b.z - 1) * idleState.MODULE_SIZE.z + b.dz * idleState.MODULE_SIZE.z / 2,
                 (b.y - 1) * idleState.MODULE_SIZE.y + b.dy * idleState.MODULE_SIZE.y / 2⟩)
            ++ others)] ∧
      ∀ c ∈ others, c.isMesh = false :=
  ⟨rfl, visualizeBlocks_boxes idleState [sampleBlock] sampleAnalysis
    { X := some 1, Y := some 2, Z := some 3 } rfl⟩

/-- C2. For every module size and every `main_front`, the transient group built by
`visualizeBlocks` holds no main-front indicator when `main_front` is `"N/A"` and
exactly one otherwise; for the four directions it is anchored at the midpoint of
the grid edge, raised by 5, and points outward: `X+` at `(5*sx, 5, 2.5*sy)` along
`(1,0,0)`, `X-` at `(0, 5, 2.5*sy)` along `(-1,0,0)`, `Y+` at `(2.5*sx, 5, 5*sy)`
along `(0,0,1)`, `Y-` at `(2.5*sx, 5, 0)` along `(0,0,-1)`. -/
theorem visualizeBlocks_mainFront (s : State) (blocks : List ModuleBlock) (a : Analysis)
    (cog : Cog) (hcog : a.cog = some cog) :
    ∃ group : List GroupChild,
      (visualizeBlocks (some blocks) (some a) s).1.scene = clearScene s.scene ++ [.group group] ∧
      (a.main_front = some "N/A" → group.filter GroupChild.isArrow = []) ∧
      (a.main_front ≠ some "N/A" →
        ∃ dir origin, group.filter GroupChild.isArrow
          = [.arrowHelper dir origin 4 0x00ffff (3 / 2) 1]) ∧
      (a.main_front = some "X+" → group.filter GroupChild.isArrow =
        [.arrowHelper ⟨1, 0, 0⟩ ⟨5 * s.MODULE_SIZE.x, 5, 2.5 * s.MODULE_SIZE.y⟩
          4 0x00ffff (3 / 2) 1]) ∧
      (a.main_front = some "X-" → group.filter GroupChild.isArrow =
        [.arrowHelper ⟨-1, 0, 0⟩ ⟨0, 5, 2.5 * s.MODULE_SIZE.y⟩ 4 0x00ffff (3 / 2) 1]) ∧
      (a.main_front = some "Y+" → group.filter GroupChild.isArrow =
        [.arrowHelper ⟨0, 0, 1⟩ ⟨2.5 * s.MODULE_SIZE.x, 5, 5 * s.MODULE_SIZE.y⟩
          4 0x00ffff (3 / 2) 1]) ∧
      (a.main_front = some "Y-" → group.filter GroupChild.isArrow =
        [.arrowHelper ⟨0, 0, -1⟩ ⟨2.5 * s.MODULE_SIZE.x, 5, 0⟩ 4 0x00ffff (3 / 2) 1]) := by
  have hfilter : ∀ tail : List GroupChild,
      (blocks.map (blockCube s.MODULE_SIZE s.BLOCK_COLORS)
        ++ [GroupChild.cogSphere (1 / 2) 0xff0000 (cog.X, cog.Z, cog.Y)] ++ tail).filter
          GroupChild.isArrow = tail.filter GroupChild.isArrow := by
    intro tail
    simp [List.filter_append, filter_isArrow_cubes, List.filter_cons, GroupChild.isArrow]
  have harrow : ∀ mf : Option String,
      [mainFrontArrow s.MODULE_SIZE mf].filter GroupChild.isArrow
        = [mainFrontArrow s.MODULE_SIZE mf] := by
    intro mf
    simp [List.filter_cons, mainFrontArrow_isArrow]
  refine ⟨_, by rw [visualizeBlocks_completes s blocks a cog hcog], ?_, ?_, ?_, ?_, ?_, ?_⟩
  · intro h
    rw [hfilter]
    simp [h]
  · intro h
    rw [hfilter, if_pos h, harrow]
    unfold mainFrontArrow
    split_ifs <;> exact ⟨_, _, rfl⟩
  · intro h
    rw [hfilter, h, if_pos (by decide), harrow, mainFrontArrow_xPlus]
  · intro h
    rw [hfilter, h, if_pos (by decide), harrow, mainFrontArrow_xMinus]
  · intro h
    rw [hfilter, h, if_pos (by decide), harrow, mainFrontArrow_yPlus]
  · intro h
    rw [hfilter, h, if_pos (by decide), harrow, mainFrontArrow_yMinus]

/-- Witness of C2: the sample analysis has main front `X+`. -/
theorem visualizeBlocks_mainFront_witness :
    sampleAnalysis.cog = some { X := some 1, Y := some 2, Z := some 3 } ∧
    ∃ group : List GroupChild,
      (visualizeBlocks (some [sampleBlock]) (some sampleAnalysis) idleState).1.scene =
        clearScene idleState.scene ++ [.group group] ∧
      group.filter GroupChild.isArrow =
        [.arrowHelper ⟨1, 0, 0⟩ ⟨5 * idleState.MODULE_SIZE.x, 5, 2.5 * idleState.MODULE_SIZE.y⟩
          4 0x00ffff (3 / 2) 1] := by
  refine ⟨rfl, ?_⟩
  obtain ⟨group, hscene, _, _, hx, _⟩ :=
    visualizeBlocks_mainFront idleState [sampleBlock] sampleAnalysis
      { X := some 1, Y := some 2, Z := some 3 } rfl
  exact ⟨group, hscene, hx rfl⟩

/-! ## Scene composer -/

/-- C10. On a scene whose first four children are the environment set, followed by
any number of other objects, `clearScene` leaves exactly those four, unchanged
and in order; a second call changes nothing more; and on a scene with no
transient group it changes nothing. -/
theorem clearScene_environment (a d g x : SceneObject) (rest : List SceneObject)
    (hrest : ∀ o ∈ rest, o ∉ [a, d, g, x]) :
    clearScene ([a, d, g, x] ++ rest) = [a, d, g, x] ∧
    clearScene (clearScene ([a, d, g, x] ++ rest)) = clearScene ([a, d, g, x] ++ rest) ∧
    clearScene [a, d, g, x] = [a, d, g, x] := by
  refine ⟨clearScene_env_append a d g x rest hrest, ?_, clearScene_env a d g x⟩
  rw [clearScene_env_append a d g x rest hrest, clearScene_env]

/-- Witness of C10: the environment of `initThree` followed by two groups. -/
theorem clearScene_environment_witness :
    (∀ o ∈ [SceneObject.group [], SceneObject.group []],
      o ∉ [SceneObject.ambientLight 0x404040,
           SceneObject.directionalLight 0xffffff (3 / 2) ⟨10, 15, 10⟩,
           SceneObject.gridHelper (5 * defaultModuleSize.x) 5 (-1 / 100) (1 / 2),
           SceneObject.axesHelper 10]) ∧
    clearScene (initThree defaultModuleSize ++ [.group [], .group []])
      = initThree defaultModuleSize := by
  have hrest : ∀ o ∈ [SceneObject.group [], SceneObject.group []],
      o ∉ [SceneObject.ambientLight 0x404040,
           SceneObject.directionalLight 0xffffff (3 / 2) ⟨10, 15, 10⟩,
           SceneObject.gridHelper (5 * defaultModuleSize.x) 5 (-1 / 100) (1 / 2),
           SceneObject.axesHelper 10] := by
    intro o ho
    simp only [List.mem_cons, List.mem_singleton, List.not_mem_nil, or_false] at ho
    rcases ho with ho | ho <;> subst ho <;> simp
  exact ⟨hrest, (clearScene_environment _ _ _ _ _ hrest).1⟩


/-! ## Session controller: lemmas -/

theorem updateAnalysis_empty : updateAnalysis (some emptyAnalysis) = .error (.typeError "W_max") := rfl

theorem visualizeBlocks_frame (coords : Option (List ModuleBlock)) (analysis : Option Analysis)
    (s : State) :
    (visualizeBlocks coords analysis s).1.exportCsvBtnDisabled = s.exportCsvBtnDisabled ∧
    (visualizeBlocks coords analysis s).1.generateBtnDisabled = s.generateBtnDisabled ∧
    (visualizeBlocks coords analysis s).1.currentCoords = s.currentCoords := by
  unfold visualizeBlocks
  cases coords with
  | none => simp
  | some blocks =>
    cases analysis with
    | none => simp
    | some a =>
      cases hc : a.cog with
      | none => simp [hc]
      | some cog => simp [hc]

theorem handleGenerateBegin_requested (s : State) (h : countsNegative s = false) :
    (handleGenerateBegin s).exportCsvBtnDisabled = true ∧
    (handleGenerateBegin s).generateBtnDisabled = true := by
  simp [handleGenerateBegin, h, updateConsole]

theorem handleGenerateBegin_rejected (s : State) (h : countsNegative s = true) :
    handleGenerateBegin s =
      { s with consoleLog := { message := "Input counts cannot be negative.", isError := true } } := by
  simp [handleGenerateBegin, h, updateConsole]

theorem generateTry_wellFormed_success (data : GenerateData) (s : State)
    (hs : data.success = true) (hwf : data.wellFormed = true) :
    (generateTry data s).2 = none ∧ (generateTry data s).1.exportCsvBtnDisabled = false := by
  obtain ⟨success, console, log, coords, analysis⟩ := data
  simp only at hs
  subst hs
  cases coords with
  | none => simp [GenerateData.wellFormed] at hwf
  | some blocks =>
    cases analysis with
    | none => simp [GenerateData.wellFormed] at hwf
    | some a =>
      obtain ⟨parameters, cog, mainFront⟩ := a
      cases parameters with
      | none => simp [GenerateData.wellFormed] at hwf
      | some params =>
        cases cog with
        | none => simp [GenerateData.wellFormed] at hwf
        | some c =>
          unfold generateTry
          simp only [if_true]
          rw [visualizeBlocks_completes _ blocks
            { parameters := some params, cog := some c, main_front := mainFront } c rfl]
          simp [updateAnalysis]

theorem generateTry_export_unchanged_of_failure (data : GenerateData) (s : State)
    (hs : data.success = false) :
    (generateTry data s).1.exportCsvBtnDisabled = s.exportCsvBtnDisabled := by
  simp [generateTry, hs, updateAnalysis_empty, updateConsole, updateRulesLog]

theorem handleGenerateResume_generateBtn (outcome : GenerateOutcome) (s : State) :
    (handleGenerateResume outcome s).generateBtnDisabled = false := by
  unfold handleGenerateResume
  cases outcome with
  | failed error => rfl
  | json data =>
    simp only
    split <;> rfl

theorem handleGenerateResume_export (outcome : GenerateOutcome) (s : State)
    (hwf : (Event.generateResume outcome).wellFormed = true) :
    (handleGenerateResume outcome s).exportCsvBtnDisabled =
      if phaseAfter outcome = .Visualized then false else s.exportCsvBtnDisabled := by
  cases outcome with
  | failed error => simp [handleGenerateResume, phaseAfter, generateFinally, generateCatch, updateConsole]
  | json data =>
    cases hs : data.success with
    | true =>
      have h := generateTry_wellFormed_success data s hs (by simpa [Event.wellFormed] using hwf)
      unfold handleGenerateResume
      simp only [phaseAfter, hs, if_true]
      split
      · rename_i s1 e heq
        have := h.1
        rw [heq] at this
        simp at this
      · rename_i s1 heq
        have := h.2
        rw [heq] at this
        simpa [generateFinally] using this
    | false =>
      have h := generateTry_export_unchanged_of_failure data s hs
      unfold handleGenerateResume
      simp only [phaseAfter, hs]
      split
      · rename_i s1 e heq
        rw [heq] at h
        simpa [generateFinally, generateCatch, updateConsole] using h
      · rename_i s1 heq
        rw [heq] at h
        simpa [generateFinally] using h

theorem handleReset_flags (s : State) :
    (handleReset s).1.exportCsvBtnDisabled = true ∧
    (handleReset s).1.generateBtnDisabled = s.generateBtnDisabled := by
  simp [handleReset, updateAnalysis_empty]

theorem handleExportCsvBegin_flags (s : State) :
    (handleExportCsvBegin s).exportCsvBtnDisabled = s.exportCsvBtnDisabled ∧
    (handleExportCsvBegin s).generateBtnDisabled = s.generateBtnDisabled := by
  unfold handleExportCsvBegin
  cases s.currentCoords <;> simp [updateConsole]

theorem handleExportCsvResume_flags (outcome : ExportOutcome) (s : State) :
    (handleExportCsvResume outcome s).exportCsvBtnDisabled = s.exportCsvBtnDisabled ∧
    (handleExportCsvResume outcome s).generateBtnDisabled = s.generateBtnDisabled := by
  unfold handleExportCsvResume
  cases outcome <;> simp [updateConsole]


theorem step_preserves (σ σ1 : Session) (e : Event) (hwf : e.wellFormed = true)
    (hstep : σ.step? e = some σ1)
    (hinv : (σ.state.exportCsvBtnDisabled = false ↔ σ.phase = .Visualized) ∧
      (σ.generateInFlight = true →
        σ.state.generateBtnDisabled = true ∧ σ.state.exportCsvBtnDisabled = true)) :
    (σ1.state.exportCsvBtnDisabled = false ↔ σ1.phase = .Visualized) ∧
      (σ1.generateInFlight = true →
        σ1.state.generateBtnDisabled = true ∧ σ1.state.exportCsvBtnDisabled = true) := by
  obtain ⟨hphase, hflight⟩ := hinv
  cases e with
  | generateBegin =>
    unfold Session.step? at hstep
    by_cases hbtn : σ.state.generateBtnDisabled = true
    · simp [hbtn] at hstep
    · have hnot : σ.generateInFlight ≠ true := fun h => hbtn (hflight h).1
      have hbtn2 : σ.state.generateBtnDisabled = false := by simpa using hbtn
      by_cases hneg : countsNegative σ.state = true
      · simp [hbtn2, hneg] at hstep
        subst hstep
        rw [handleGenerateBegin_rejected _ hneg]
        exact ⟨hphase, fun h => absurd h hnot⟩
      · have hneg2 : countsNegative σ.state = false := by simpa using hneg
        simp [hbtn2, hneg2] at hstep
        subst hstep
        have h := handleGenerateBegin_requested σ.state hneg2
        simp [h.1, h.2]
  | generateResume outcome =>
    unfold Session.step? at hstep
    by_cases hfl : σ.generateInFlight = true
    · simp only [hfl, if_true, Option.some.injEq] at hstep
      subst hstep
      have h := handleGenerateResume_export outcome σ.state hwf
      have hdis := (hflight hfl).2
      constructor
      · simp only [h]
        by_cases hp : phaseAfter outcome = .Visualized
        · simp [hp]
        · simp [hp, hdis]
      · intro hcontra
        simp at hcontra
    · simp [hfl] at hstep
  | reset =>
    unfold Session.step? at hstep
    simp only [Option.some.injEq] at hstep
    subst hstep
    have h := handleReset_flags σ.state
    simp only [h.1, h.2]
    refine ⟨by simp, fun hfl => ⟨(hflight hfl).1, trivial⟩⟩
  | exportBegin =>
    unfold Session.step? at hstep
    have h := handleExportCsvBegin_flags σ.state
    cases hc : σ.state.currentCoords with
    | none =>
      simp only [hc, Option.some.injEq] at hstep
      subst hstep
      simp only [h.1, h.2]
      exact ⟨hphase, hflight⟩
    | some coords =>
      simp only [hc, Option.some.injEq] at hstep
      subst hstep
      simp only [h.1, h.2]
      exact ⟨hphase, hflight⟩
  | exportResume outcome =>
    unfold Session.step? at hstep
    have h := handleExportCsvResume_flags outcome σ.state
    cases hn : σ.exportsInFlight with
    | zero => simp [hn] at hstep
    | succ n =>
      simp only [hn, Option.some.injEq] at hstep
      subst hstep
      simp only [h.1, h.2]
      exact ⟨hphase, hflight⟩

theorem run_preserves (es : List Event) (σ σ1 : Session)
    (hwf : ∀ e ∈ es, e.wellFormed = true) (hrun : σ.run? es = some σ1)
    (hinv : (σ.state.exportCsvBtnDisabled = false ↔ σ.phase = .Visualized) ∧
      (σ.generateInFlight = true →
        σ.state.generateBtnDisabled = true ∧ σ.state.exportCsvBtnDisabled = true)) :
    (σ1.state.exportCsvBtnDisabled = false ↔ σ1.phase = .Visualized) ∧
      (σ1.generateInFlight = true →
        σ1.state.generateBtnDisabled = true ∧ σ1.state.exportCsvBtnDisabled = true) := by
  induction es generalizing σ with
  | nil =>
    simp only [Session.run?, Option.some.injEq] at hrun
    subst hrun
    exact hinv
  | cons e es ih =>
    unfold Session.run? at hrun
    cases hstep : σ.step? e with
    | none => simp [hstep] at hrun
    | some σ2 =>
      simp only [hstep] at hrun
      exact ih σ2 (fun e1 h1 => hwf e1 (List.mem_cons_of_mem e h1)) hrun
        (step_preserves σ σ2 e (hwf e (List.mem_cons_self e es)) hstep hinv)

/-! ## Session controller -/

/-- C4. In every state reached from an idle page (export disabled) by steps of the
session controller whose generate answers follow the wire contract, export is
enabled if and only if the phase is `Visualized`; it is disabled in `Idle`,
`Requesting` and `Failed`. -/
theorem export_enabled_iff_visualized (s0 : State) (h0 : s0.exportCsvBtnDisabled = true)
    (es : List Event) (hwf : ∀ e ∈ es, e.wellFormed = true) (σ : Session)
    (hrun : (Session.start s0).run? es = some σ) :
    (σ.state.exportCsvBtnDisabled = false ↔ σ.phase = .Visualized) ∧
    (σ.phase = .Idle ∨ σ.phase = .Requesting ∨ σ.phase = .Failed →
      σ.state.exportCsvBtnDisabled = true) := by
  have h := run_preserves es (Session.start s0) σ hwf hrun
    ⟨by simp [Session.start, h0], by simp [Session.start]⟩
  refine ⟨h.1, ?_⟩
  intro hp
  cases hd : σ.state.exportCsvBtnDisabled with
  | true => rfl
  | false =>
    have hv := h.1.mp hd
    rw [hv] at hp
    simp at hp

/-- Witness of C4: a generate from the idle page, answered with success. -/
theorem export_enabled_iff_visualized_witness :
    idleState.exportCsvBtnDisabled = true ∧
    (∀ e ∈ [Event.generateBegin, Event.generateResume (.json successData)],
      e.wellFormed = true) ∧
    (Session.start idleState).run? [.generateBegin, .generateResume (.json successData)]
      = some { state := visualizedState, phase := .Visualized,
               generateInFlight := false, exportsInFlight := 0 } ∧
    visualizedState.exportCsvBtnDisabled = false := by
  have h0 : idleState.exportCsvBtnDisabled = true := rfl
  have hwf : ∀ e ∈ [Event.generateBegin, Event.generateResume (.json successData)],
      e.wellFormed = true := by
    intro e he
    simp only [List.mem_cons, List.mem_singleton, List.not_mem_nil, or_false] at he
    rcases he with he | he <;> subst he <;> rfl
  have hneg : countsNegative idleState = false := by
    simp [countsNegative, isNegative, idleState]
  have hrun : (Session.start idleState).run?
      [.generateBegin, .generateResume (.json successData)]
      = some { state := visualizedState, phase := .Visualized,
               generateInFlight := false, exportsInFlight := 0 } := by
    simp [Session.run?, Session.step?, Session.start, hneg, visualizedState, handleGenerate,
      phaseAfter, successData]
    rfl
  exact ⟨h0, hwf, hrun,
    ((export_enabled_iff_visualized idleState h0 _ hwf _ hrun).1).mpr rfl⟩



/-- C7. When `handleGenerate` finishes the generate button is enabled, whatever the
outcome: a generate fired with the button enabled ends with it enabled (local
rejection included), and the part that runs after the answer enables it from
every state, for every answer (success, reported failure, transport error, or
an exception while the answer is processed). -/
theorem generate_button_reenabled (s : State) (outcome : GenerateOutcome)
    (h : s.generateBtnDisabled = false) :
    (handleGenerate outcome s).generateBtnDisabled = false ∧
    ∀ s1 : State, (handleGenerateResume outcome s1).generateBtnDisabled = false := by
  refine ⟨?_, fun s1 => handleGenerateResume_generateBtn outcome s1⟩
  unfold handleGenerate
  by_cases hneg : countsNegative s = true
  · rw [if_pos hneg, handleGenerateBegin_rejected s hneg]
    exact h
  · rw [if_neg hneg]
    exact handleGenerateResume_generateBtn outcome _

/-- Witness of C7: a generate from the idle page whose request fails in transport. -/
theorem generate_button_reenabled_witness :
    idleState.generateBtnDisabled = false ∧
    (handleGenerate (.failed (.network "Failed to fetch")) idleState).generateBtnDisabled
      = false :=
  ⟨rfl, (generate_button_reenabled idleState (.failed (.network "Failed to fetch")) rfl).1⟩

/-- C8. A generate in which one of the three counts is negative, and an export
with no stored layout, end in the state they started in except for the console
line, which holds the rejection message flagged as an error: no request is
issued and the layout, scene, buttons, rule log and analysis panel are
unchanged. -/
theorem local_rejection_frame (s : State) :
    ((∃ q : ℚ, q < 0 ∧
        (s.comfortInput = some q ∨ s.transparentInput = some q ∨ s.opaqueInput = some q)) →
      ∀ outcome : GenerateOutcome, handleGenerate outcome s =
        { s with consoleLog :=
            { message := "Input counts cannot be negative.", isError := true } }) ∧
    (s.currentCoords = none →
      ∀ outcome : ExportOutcome, handleExportCsv outcome s =
        { s with consoleLog :=
            { message := "No valid configuration to export.", isError := true } }) := by
  constructor
  · rintro ⟨q, hq, hmem⟩ outcome
    have hneg : countsNegative s = true := by
      unfold countsNegative
      rcases hmem with h | h | h <;> simp [h, isNegative, hq]
    unfold handleGenerate
    rw [if_pos hneg, handleGenerateBegin_rejected s hneg]
  · intro hnone outcome
    simp [handleExportCsv, handleExportCsvBegin, hnone, updateConsole]

/-- Witness of C8: the counts `(-1, 3, 1)`, and an export from the idle page. -/
theorem local_rejection_frame_witness :
    (∃ q : ℚ, q < 0 ∧
        (negativeCountState.comfortInput = some q ∨ negativeCountState.transparentInput = some q
          ∨ negativeCountState.opaqueInput = some q)) ∧
    idleState.currentCoords = none ∧
    handleGenerate (.json successData) negativeCountState =
      { negativeCountState with consoleLog :=
          { message := "Input counts cannot be negative.", isError := true } } ∧
    handleExportCsv (.ok "x,y,z") idleState =
      { idleState with consoleLog :=
          { message := "No valid configuration to export.", isError := true } } :=
  have hq : ∃ q : ℚ, q < 0 ∧
      (negativeCountState.comfortInput = some q ∨ negativeCountState.transparentInput = some q
        ∨ negativeCountState.opaqueInput = some q) :=
    ⟨-1, by norm_num, Or.inl rfl⟩
  ⟨hq, rfl, (local_rejection_frame negativeCountState).1 hq (.json successData),
    (local_rejection_frame idleState).2 rfl (.ok "x,y,z")⟩

/-- C9. After reset, from every state whose scene is the environment set followed
by other objects, the counts are `(5, 3, 1)`, the scene is the environment set
alone, no layout is stored, export is disabled and the rule log is empty; no
request is issued. -/
theorem handleReset_restores (s : State) (a d g x : SceneObject) (rest : List SceneObject)
    (hscene : s.scene = [a, d, g, x] ++ rest) (hrest : ∀ o ∈ rest, o ∉ [a, d, g, x]) :
    (handleReset s).1.comfortInput = some 5 ∧
    (handleReset s).1.transparentInput = some 3 ∧
    (handleReset s).1.opaqueInput = some 1 ∧
    (handleReset s).1.scene = [a, d, g, x] ∧
    (handleReset s).1.currentCoords = none ∧
    (handleReset s).1.exportCsvBtnDisabled = true ∧
    (handleReset s).1.rulesList = [] ∧
    (handleReset s).1.requests = s.requests := by
  have hclear : clearScene s.scene = [a, d, g, x] := by
    rw [hscene]
    exact clearScene_env_append a d g x rest hrest
  simp [handleReset, updateAnalysis_empty, hclear]

/-- Witness of C9: reset of a page that stores and shows a layout. -/
theorem handleReset_restores_witness :
    shownState.scene =
      [SceneObject.ambientLight 0x404040,
       SceneObject.directionalLight 0xffffff (3 / 2) ⟨10, 15, 10⟩,
       SceneObject.gridHelper (5 * defaultModuleSize.x) 5 (-1 / 100) (1 / 2),
       SceneObject.axesHelper 10] ++ [SceneObject.group []] ∧
    (handleReset shownState).1.scene = initThree defaultModuleSize ∧
    (handleReset shownState).1.currentCoords = none ∧
    (handleReset shownState).1.exportCsvBtnDisabled = true := by
  have hrest : ∀ o ∈ [SceneObject.group []],
      o ∉ [SceneObject.ambientLight 0x404040,
           SceneObject.directionalLight 0xffffff (3 / 2) ⟨10, 15, 10⟩,
           SceneObject.gridHelper (5 * defaultModuleSize.x) 5 (-1 / 100) (1 / 2),
           SceneObject.axesHelper 10] := by
    intro o ho
    simp only [List.mem_singleton] at ho
    subst ho
    simp
  have h := handleReset_restores shownState _ _ _ _ [SceneObject.group []] rfl hrest
  exact ⟨rfl, h.2.2.2.1, h.2.2.2.2.1, h.2.2.2.2.2.1⟩

/-! ## Where the script departs from the specification -/

/-- C3. With the component `Z` of the centre of gravity absent, `visualizeBlocks`
still adds the marker to the transient group, at a position whose height is
undefined. -/
theorem cog_marker_placed_without_component :
    (visualizeBlocks (some []) (some incompleteCogAnalysis) idleState).2 = none ∧
    (visualizeBlocks (some []) (some incompleteCogAnalysis) idleState).1.scene =
      initThree defaultModuleSize ++
        [.group [.cogSphere (1 / 2) 0xff0000 (some 1, none, some 2)]] := by
  rw [visualizeBlocks_completes idleState [] incompleteCogAnalysis
    { X := some 1, Y := some 2, Z := none } rfl]
  refine ⟨rfl, ?_⟩
  have hclear : clearScene idleState.scene = initThree defaultModuleSize :=
    clearScene_env _ _ _ _
  simp [hclear, incompleteCogAnalysis]

/-- C5. A generate from a page that stores and shows a layout: after a transport
error the layout is still stored and the transient group is still in the scene,
while after a reported failure the layout is gone and the scene is the
environment set. -/
theorem transport_error_keeps_layout :
    (handleGenerate (.failed (.network "Failed to fetch")) shownState).currentCoords
      = some [sampleBlock] ∧
    (handleGenerate (.failed (.network "Failed to fetch")) shownState).scene
      = initThree defaultModuleSize ++ [.group []] ∧
    (handleGenerate (.failed (.network "Failed to fetch")) shownState).exportCsvBtnDisabled
      = true ∧
    (handleGenerate (.json failureData) shownState).currentCoords = none ∧
    (handleGenerate (.json failureData) shownState).scene = initThree defaultModuleSize ∧
    (handleGenerate (.json failureData) shownState).exportCsvBtnDisabled = true := by
  have hneg : countsNegative shownState = false := by
    simp [countsNegative, isNegative, shownState, idleState]
  have hclear : clearScene shownState.scene = initThree defaultModuleSize :=
    clearScene_env_append _ _ _ _ [.group []] (by
      intro o ho
      simp only [List.mem_singleton] at ho
      subst ho
      simp)
  refine ⟨?_, ?_, ?_, ?_, ?_, ?_⟩ <;>
    simp [handleGenerate, hneg, handleGenerateBegin, handleGenerateResume, generateTry,
      generateCatch, generateFinally, updateConsole, updateRulesLog, updateAnalysis_empty,
      failureData] <;>
    first
      | rfl
      | exact hclear

/-- C6. Blanking the analysis panel throws: `updateAnalysis` on the empty analysis
raises a type error before the panel is written, so every reset ends with an
uncaught exception, the panel and the console line as they were, and every
generate answered with `success: false` leaves the panel as it was and reports
the exception as an API error. -/
theorem blanking_analysis_throws (s : State) (data : GenerateData)
    (hfail : data.success = false) :
    updateAnalysis (some emptyAnalysis) = .error (.typeError "W_max") ∧
    (handleReset s).2 = some (.typeError "W_max") ∧
    (handleReset s).1.analysisList = s.analysisList ∧
    (handleReset s).1.consoleLog = s.consoleLog ∧
    (generateTry data s).2 = some (.typeError "W_max") ∧
    (handleGenerateResume (.json data) s).analysisList = s.analysisList ∧
    (handleGenerateResume (.json data) s).consoleLog =
      { message := "API Error: " ++ (JsError.typeError "W_max").message
          ++ ". Ensure the Flask server (app.py) is running on " ++ API_BASE_URL ++ "."
        isError := true } := by
  refine ⟨rfl, ?_, ?_, ?_, ?_, ?_, ?_⟩ <;>
    simp [handleReset, handleGenerateResume, generateTry, hfail, updateAnalysis_empty,
      generateCatch, generateFinally, updateConsole, updateRulesLog]

/-- Witness of C6: reset of the idle page, and a reported failure. -/
theorem blanking_analysis_throws_witness :
    failureData.success = false ∧
    (handleReset idleState).2 = some (.typeError "W_max") ∧
    (handleReset idleState).1.analysisList = blankPanel :=
  ⟨rfl, (blanking_analysis_throws idleState failureData rfl).2.1,
    (blanking_analysis_throws idleState failureData rfl).2.2.1⟩


end GeometryGenerator
